import Mathlib

/-!
Shallow embedding of `asylo/identity/init.h`:
`InitializeEnclaveAssertionAuthorities`, the enclave assertion authority
initialization orchestrator.

The orchestrator is a C++ function template over a config iterator range.
We embed the range as a `List` of configuration records.  The external
collaborators — `EnclaveAssertionAuthority::GenerateAuthorityId`, the two
static registry maps (`AssertionGeneratorMap`, `AssertionVerifierMap`) and
`internal::TryInitialize` on an authority instance — are out of scope of the
source fragment; they are modelled abstractly as an environment `Env σ`
parametrised over an authority-state type `σ`.  Every `TryInitialize`
invocation is recorded in an event trace so that theorems can speak about
which authorities received calls.
-/

namespace Asylo

/-- `AssertionDescription`: the (identity_type, authority_type) pair of a
configuration record.  `identity_type` is an enum (modelled as `Nat`) and
`authority_type` a string, as in the proto definition. -/
structure AssertionDescription where
  identity_type : Nat
  authority_type : String
deriving DecidableEq, Repr

/-- `EnclaveAssertionAuthorityConfig`: a configuration record, pairing a
description with an opaque config payload (modelled as `String`). -/
structure EnclaveAssertionAuthorityConfig where
  description : AssertionDescription
  config : String
deriving DecidableEq, Repr

/-- `Status` as used by the orchestrator: an error code (0 = OK, as in
`Status::OkStatus()`) and an error message. -/
structure Status where
  error_code : Nat
  error_message : String
deriving DecidableEq, Repr

/-- `Status::OkStatus()`. -/
def Status.okStatus : Status := ⟨0, ""⟩

/-- The single generic aggregate failure returned by the orchestrator:
`Status(error::GoogleError::INTERNAL, "One or more errors occurred ...")`.
`error::GoogleError::INTERNAL` has numeric value 13. -/
def internalAggregateStatus : Status :=
  ⟨13, "One or more errors occurred while attempting to initialize " ++
       "assertion generators and assertion verifiers"⟩

/-- Whether an authority instance acts as an assertion generator or an
assertion verifier.  The two families live in distinct registry maps in the
source, so an instance is addressed by a role together with a handle. -/
inductive Role where
  | generator
  | verifier
deriving DecidableEq, Repr

/-- One `internal::TryInitialize` invocation performed by the orchestrator:
which authority instance (role + handle) was called, with which
configuration payload. -/
structure InitEvent where
  role : Role
  handle : Nat
  config : String
deriving DecidableEq, Repr

/-- A registry map (`AssertionGeneratorMap` / `AssertionVerifierMap`):
an association from authority-identifier strings to authority-instance
handles.  `GetValue` is association-list lookup; `Values()` enumerates the
entries. -/
abbrev Registry := List (String × Nat)

/-- The abstract environment: behavior of the external collaborators.

* `generateAuthorityId` models
  `EnclaveAssertionAuthority::GenerateAuthorityId(identity_type,
  authority_type)`; `none` models a non-ok `StatusOr` (the orchestrator only
  tests `.ok()` and logs the status).
* `tryInitialize` models `internal::TryInitialize(config, authority)` on the
  authority instance addressed by a role and handle: it returns whether the
  resulting status was ok, together with the updated authority state. -/
structure Env (σ : Type) where
  generateAuthorityId : Nat → String → Option String
  tryInitialize : Role → Nat → String → σ → Bool × σ

/-- The global mutable state the orchestrator touches: the two static
registry maps and the authority instances' own state `σ`. -/
structure World (σ : Type) where
  genRegistry : Registry
  verRegistry : Registry
  auth : σ

variable {σ : Type}

/-- The body of the first loop of `InitializeEnclaveAssertionAuthorities`
for one configuration record and one registry map (the generator block and
the verifier block of the loop body are textually identical up to the map
used): look the derived id up; if present, `TryInitialize(config.config(),
it)` and fold a failure into `ok`; if absent, `ok = false` (with a logged
warning). -/
def lookupStep (env : Env σ) (reg : Registry) (role : Role)
    (authority_id : String) (config : String) (ok : Bool) (s : σ) :
    Bool × σ × List InitEvent :=
  match reg.lookup authority_id with
  | some handle =>
      let r := env.tryInitialize role handle config s
      (ok && r.1, r.2, [⟨role, handle, config⟩])
  | none => (false, s, [])

/-- The full body of the first loop for one configuration record:
derive the authority id (on failure `ok = false`, `continue`), then the
generator-map block, then the verifier-map block. -/
def handleRecord (env : Env σ) (genReg verReg : Registry)
    (config : EnclaveAssertionAuthorityConfig) (ok : Bool) (s : σ) :
    Bool × σ × List InitEvent :=
  match env.generateAuthorityId config.description.identity_type
      config.description.authority_type with
  | none => (false, s, [])
  | some authority_id =>
      let g := lookupStep env genReg Role.generator authority_id
        config.config ok s
      let v := lookupStep env verReg Role.verifier authority_id
        config.config g.1 g.2.1
      (v.1, v.2.1, g.2.2 ++ v.2.2)

/-- The first loop: `for (auto it = configs_begin; it != configs_end; ++it)`
over the configuration records, threading the `ok` accumulator and the
authority state. -/
def firstPass (env : Env σ) (genReg verReg : Registry)
    (configs : List EnclaveAssertionAuthorityConfig) (ok : Bool) (s : σ) :
    Bool × σ × List InitEvent :=
  match configs with
  | [] => (ok, s, [])
  | c :: rest =>
      let r := handleRecord env genReg verReg c ok s
      let t := firstPass env genReg verReg rest r.1 r.2.1
      (t.1, t.2.1, r.2.2 ++ t.2.2)

/-- One of the two fallback loops: `for (auto &x : Map::Values())`, calling
`internal::TryInitialize("", &x)` on every enumerated instance and folding
each failure into `ok`. -/
def fallbackPass (env : Env σ) (role : Role) (handles : List Nat)
    (ok : Bool) (s : σ) : Bool × σ × List InitEvent :=
  match handles with
  | [] => (ok, s, [])
  | h :: rest =>
      let r := env.tryInitialize role h "" s
      let t := fallbackPass env role rest (ok && r.1) r.2
      (t.1, t.2.1, ⟨role, h, ""⟩ :: t.2.2)

/-- The whole run starting from a given accumulator value: the first pass
over the configs, then the generator fallback loop, then the verifier
fallback loop.  (`InitializeEnclaveAssertionAuthorities` is `runFrom` with
`ok = true` followed by the final status selection.) -/
def runFrom (env : Env σ) (genReg verReg : Registry)
    (configs : List EnclaveAssertionAuthorityConfig) (ok : Bool) (s : σ) :
    Bool × σ × List InitEvent :=
  let f := firstPass env genReg verReg configs ok s
  let g := fallbackPass env Role.generator (genReg.map Prod.snd) f.1 f.2.1
  let v := fallbackPass env Role.verifier (verReg.map Prod.snd) g.1 g.2.1
  (v.1, v.2.1, f.2.2 ++ (g.2.2 ++ v.2.2))

/-- `InitializeEnclaveAssertionAuthorities(configs_begin, configs_end)`:
`bool ok = true;` the two passes; then
`return ok ? Status::OkStatus() : Status(INTERNAL, ...)`.
Returns the final status, the resulting world (registries plus authority
state) and the trace of `TryInitialize` invocations performed. -/
def InitializeEnclaveAssertionAuthorities (env : Env σ) (w : World σ)
    (configs : List EnclaveAssertionAuthorityConfig) :
    Status × World σ × List InitEvent :=
  let r := runFrom env w.genRegistry w.verRegistry configs true w.auth
  (if r.1 then Status.okStatus else internalAggregateStatus,
   ⟨w.genRegistry, w.verRegistry, r.2.1⟩, r.2.2)

/-- The state transition a single recorded `TryInitialize` invocation
performs on the authority state. -/
def applyEvent (env : Env σ) (s : σ) (e : InitEvent) : σ :=
  (env.tryInitialize e.role e.handle e.config s).2

/-- Derivation of the authority id fails for this record. -/
def derivationFails (env : Env σ)
    (config : EnclaveAssertionAuthorityConfig) : Prop :=
  env.generateAuthorityId config.description.identity_type
    config.description.authority_type = none

/-- The record derives an id that has no entry in the given registry map. -/
def unmatchedIn (env : Env σ) (reg : Registry)
    (config : EnclaveAssertionAuthorityConfig) : Prop :=
  ∃ authority_id,
    env.generateAuthorityId config.description.identity_type
      config.description.authority_type = some authority_id ∧
    reg.lookup authority_id = none

/-- The idempotent-latch contract of the Authority capability (spec §4.2
with the per-instance state ownership of §3): `initialized` reads the
authority's two-state latch; once an authority is initialized, every later
`TryInitialize` with any configuration is a success-returning no-op; a call
that returns success leaves the authority initialized; and a call on one
authority instance never changes another instance's latch. -/
structure LatchContract (env : Env σ)
    (initialized : Role → Nat → σ → Bool) : Prop where
  noop : ∀ (r : Role) (h : Nat) (cfg : String) (s : σ),
    initialized r h s = true → env.tryInitialize r h cfg s = (true, s)
  latch : ∀ (r : Role) (h : Nat) (cfg : String) (s : σ),
    (env.tryInitialize r h cfg s).1 = true →
    initialized r h (env.tryInitialize r h cfg s).2 = true
  frame : ∀ (r : Role) (h : Nat) (cfg : String) (s : σ)
    (r' : Role) (h' : Nat), r ≠ r' ∨ h ≠ h' →
    initialized r' h' (env.tryInitialize r h cfg s).2 =
      initialized r' h' s

/-- A concrete authority environment whose authorities accept any
configuration; the state is the set of (role, handle) pairs already
initialized. -/
def latchEnv : Env (List (Role × Nat)) where
  generateAuthorityId := fun _ a => some a
  tryInitialize := fun r h _ s =>
    if (r, h) ∈ s then (true, s) else (true, (r, h) :: s)

/-- The initialization latch of `latchEnv`. -/
def latchInitialized (r : Role) (h : Nat) (s : List (Role × Nat)) : Bool :=
  decide ((r, h) ∈ s)

/-- A concrete authority environment with a single interesting authority
(generator handle 0) that fails its first initialization attempt and then
succeeds when retried; the state counts its attempts (0 = untried,
1 = failed once, 2 = initialized). -/
def retryEnv : Env Nat where
  generateAuthorityId := fun _ _ => none
  tryInitialize := fun r h _ s =>
    if r = Role.generator ∧ h = 0 then
      (if 2 ≤ s then (true, s) else if s = 1 then (true, 2) else (false, 1))
    else (false, s)

/-- The initialization latch of `retryEnv`. -/
def retryInitialized (r : Role) (h : Nat) (s : Nat) : Bool :=
  decide (r = Role.generator ∧ h = 0 ∧ 2 ≤ s)

/-- A concrete authority environment whose authorities reject every
nonempty configuration and accept the empty one; the state counts the
successful calls. -/
def rejectCfgEnv : Env Nat where
  generateAuthorityId := fun _ a => some a
  tryInitialize := fun _ _ cfg s =>
    if cfg = "" then (true, s + 1) else (false, s)

/-! ### Supporting lemmas about the orchestrator's structure -/

/-- Association-list lookup only returns handles that are among the
registry's enumerated values. -/
theorem lookup_mem_values (reg : Registry) (k : String) (v : Nat)
    (h : reg.lookup k = some v) : v ∈ reg.map Prod.snd := by
  induction reg with
  | nil => cases h
  | cons p rest ih =>
      obtain ⟨k', v'⟩ := p
      simp only [List.lookup] at h
      split at h
      · cases h
        simp
      · simp [ih h]

/-- The `ok` accumulator is conjunctive through one registry block: the
result is the incoming `ok` and-ed with what the block yields from `true`. -/
theorem lookupStep_ok_eq (env : Env σ) (reg : Registry) (role : Role)
    (authority_id config : String) (ok : Bool) (s : σ) :
    (lookupStep env reg role authority_id config ok s).1 =
      (ok && (lookupStep env reg role authority_id config true s).1) := by
  cases h : reg.lookup authority_id <;> simp [lookupStep, h]

/-- The state and trace produced by one registry block do not depend on the
incoming `ok` accumulator. -/
theorem lookupStep_snd_eq (env : Env σ) (reg : Registry) (role : Role)
    (authority_id config : String) (ok ok' : Bool) (s : σ) :
    (lookupStep env reg role authority_id config ok s).2 =
      (lookupStep env reg role authority_id config ok' s).2 := by
  cases h : reg.lookup authority_id <;> simp [lookupStep, h]

/-- The `ok` accumulator is conjunctive through one record's processing. -/
theorem handleRecord_ok_eq (env : Env σ) (genReg verReg : Registry)
    (c : EnclaveAssertionAuthorityConfig) (ok : Bool) (s : σ) :
    (handleRecord env genReg verReg c ok s).1 =
      (ok && (handleRecord env genReg verReg c true s).1) := by
  cases h : env.generateAuthorityId c.description.identity_type
      c.description.authority_type with
  | none => simp [handleRecord, h]
  | some authority_id =>
      cases hg : genReg.lookup authority_id <;>
        cases hv : verReg.lookup authority_id <;>
          simp [handleRecord, h, lookupStep, hg, hv, Bool.and_assoc]

/-- The state and trace produced by one record's processing do not depend on
the incoming `ok` accumulator. -/
theorem handleRecord_snd_eq (env : Env σ) (genReg verReg : Registry)
    (c : EnclaveAssertionAuthorityConfig) (ok ok' : Bool) (s : σ) :
    (handleRecord env genReg verReg c ok s).2 =
      (handleRecord env genReg verReg c ok' s).2 := by
  cases h : env.generateAuthorityId c.description.identity_type
      c.description.authority_type with
  | none => simp [handleRecord, h]
  | some authority_id =>
      cases hg : genReg.lookup authority_id <;>
        cases hv : verReg.lookup authority_id <;>
          simp [handleRecord, h, lookupStep, hg, hv]

/-- The `ok` accumulator is conjunctive through the whole first pass. -/
theorem firstPass_ok_eq (env : Env σ) (genReg verReg : Registry)
    (configs : List EnclaveAssertionAuthorityConfig) :
    ∀ (ok : Bool) (s : σ),
    (firstPass env genReg verReg configs ok s).1 =
      (ok && (firstPass env genReg verReg configs true s).1) := by
  induction configs with
  | nil => intro ok s; simp [firstPass]
  | cons c rest ih =>
      intro ok s
      simp only [firstPass]
      rw [ih (handleRecord env genReg verReg c ok s).1
            (handleRecord env genReg verReg c ok s).2.1,
          ih (handleRecord env genReg verReg c true s).1
            (handleRecord env genReg verReg c true s).2.1,
          handleRecord_ok_eq env genReg verReg c ok s,
          handleRecord_snd_eq env genReg verReg c ok true s,
          Bool.and_assoc]

/-- The state and trace of the first pass do not depend on the incoming
`ok` accumulator. -/
theorem firstPass_snd_eq (env : Env σ) (genReg verReg : Registry)
    (configs : List EnclaveAssertionAuthorityConfig) :
    ∀ (ok ok' : Bool) (s : σ),
    (firstPass env genReg verReg configs ok s).2 =
      (firstPass env genReg verReg configs ok' s).2 := by
  induction configs with
  | nil => intro ok ok' s; rfl
  | cons c rest ih =>
      intro ok ok' s
      simp only [firstPass]
      rw [handleRecord_snd_eq env genReg verReg c ok ok' s,
          ih (handleRecord env genReg verReg c ok s).1
            (handleRecord env genReg verReg c ok' s).1
            (handleRecord env genReg verReg c ok' s).2.1]

/-- The `ok` accumulator is conjunctive through a fallback loop. -/
theorem fallbackPass_ok_eq (env : Env σ) (role : Role) (handles : List Nat) :
    ∀ (ok : Bool) (s : σ),
    (fallbackPass env role handles ok s).1 =
      (ok && (fallbackPass env role handles true s).1) := by
  induction handles with
  | nil => intro ok s; simp [fallbackPass]
  | cons h rest ih =>
      intro ok s
      simp only [fallbackPass]
      rw [ih (ok && (env.tryInitialize role h "" s).1)
            (env.tryInitialize role h "" s).2,
          ih (true && (env.tryInitialize role h "" s).1)
            (env.tryInitialize role h "" s).2,
          Bool.true_and, Bool.and_assoc]

/-- The state and trace of a fallback loop do not depend on the incoming
`ok` accumulator. -/
theorem fallbackPass_snd_eq (env : Env σ) (role : Role)
    (handles : List Nat) :
    ∀ (ok ok' : Bool) (s : σ),
    (fallbackPass env role handles ok s).2 =
      (fallbackPass env role handles ok' s).2 := by
  induction handles with
  | nil => intro ok ok' s; rfl
  | cons h rest ih =>
      intro ok ok' s
      simp only [fallbackPass]
      rw [ih (ok && (env.tryInitialize role h "" s).1)
            (ok' && (env.tryInitialize role h "" s).1)
            (env.tryInitialize role h "" s).2]

/-- A fallback loop's trace is exactly one empty-configuration event per
enumerated handle, in enumeration order, irrespective of accumulator and
state. -/
theorem fallbackPass_trace (env : Env σ) (role : Role)
    (handles : List Nat) :
    ∀ (ok : Bool) (s : σ),
    (fallbackPass env role handles ok s).2.2 =
      handles.map (fun h => InitEvent.mk role h "") := by
  induction handles with
  | nil => intro ok s; rfl
  | cons h rest ih =>
      intro ok s
      simp only [fallbackPass, List.map]
      rw [ih (ok && (env.tryInitialize role h "" s).1)
            (env.tryInitialize role h "" s).2]

/-- The first pass over an appended record list is the first pass over the
first part followed by the first pass over the second part, starting from
the accumulated `ok` and state, with traces concatenated. -/
theorem firstPass_append (env : Env σ) (genReg verReg : Registry)
    (xs ys : List EnclaveAssertionAuthorityConfig) :
    ∀ (ok : Bool) (s : σ),
    firstPass env genReg verReg (xs ++ ys) ok s =
      ((firstPass env genReg verReg ys
          (firstPass env genReg verReg xs ok s).1
          (firstPass env genReg verReg xs ok s).2.1).1,
       (firstPass env genReg verReg ys
          (firstPass env genReg verReg xs ok s).1
          (firstPass env genReg verReg xs ok s).2.1).2.1,
       (firstPass env genReg verReg xs ok s).2.2 ++
         (firstPass env genReg verReg ys
            (firstPass env genReg verReg xs ok s).1
            (firstPass env genReg verReg xs ok s).2.1).2.2) := by
  induction xs with
  | nil => intro ok s; simp [firstPass]
  | cons c rest ih =>
      intro ok s
      simp only [List.cons_append, firstPass, List.append_eq]
      rw [ih (handleRecord env genReg verReg c ok s).1
            (handleRecord env genReg verReg c ok s).2.1]
      simp [List.append_assoc]

/-- The authority state after one record's processing is exactly the left
fold of the recorded `TryInitialize` transitions over the incoming state. -/
theorem handleRecord_state_fold (env : Env σ) (genReg verReg : Registry)
    (c : EnclaveAssertionAuthorityConfig) (ok : Bool) (s : σ) :
    (handleRecord env genReg verReg c ok s).2.1 =
      List.foldl (applyEvent env) s
        (handleRecord env genReg verReg c ok s).2.2 := by
  cases h : env.generateAuthorityId c.description.identity_type
      c.description.authority_type with
  | none => simp [handleRecord, h]
  | some authority_id =>
      cases hg : genReg.lookup authority_id <;>
        cases hv : verReg.lookup authority_id <;>
          simp [handleRecord, h, lookupStep, hg, hv, applyEvent]

/-- The authority state after the first pass is exactly the left fold of
the recorded `TryInitialize` transitions over the incoming state. -/
theorem firstPass_state_fold (env : Env σ) (genReg verReg : Registry)
    (configs : List EnclaveAssertionAuthorityConfig) :
    ∀ (ok : Bool) (s : σ),
    (firstPass env genReg verReg configs ok s).2.1 =
      List.foldl (applyEvent env) s
        (firstPass env genReg verReg configs ok s).2.2 := by
  induction configs with
  | nil => intro ok s; rfl
  | cons c rest ih =>
      intro ok s
      simp only [firstPass]
      rw [List.foldl_append, ← handleRecord_state_fold,
          ih (handleRecord env genReg verReg c ok s).1
            (handleRecord env genReg verReg c ok s).2.1]

/-- The authority state after a fallback loop is exactly the left fold of
the recorded `TryInitialize` transitions over the incoming state. -/
theorem fallbackPass_state_fold (env : Env σ) (role : Role)
    (handles : List Nat) :
    ∀ (ok : Bool) (s : σ),
    (fallbackPass env role handles ok s).2.1 =
      List.foldl (applyEvent env) s
        (fallbackPass env role handles ok s).2.2 := by
  induction handles with
  | nil => intro ok s; rfl
  | cons h rest ih =>
      intro ok s
      simp only [fallbackPass, List.foldl_cons]
      rw [ih (ok && (env.tryInitialize role h "" s).1)
            (env.tryInitialize role h "" s).2]
      rfl

/-- Once the accumulator is `false`, the first pass reports `false`. -/
theorem firstPass_false (env : Env σ) (genReg verReg : Registry)
    (configs : List EnclaveAssertionAuthorityConfig) (s : σ) :
    (firstPass env genReg verReg configs false s).1 = false := by
  rw [firstPass_ok_eq env genReg verReg configs false s, Bool.false_and]

/-- Once the accumulator is `false`, a fallback loop reports `false`. -/
theorem fallbackPass_false (env : Env σ) (role : Role)
    (handles : List Nat) (s : σ) :
    (fallbackPass env role handles false s).1 = false := by
  rw [fallbackPass_ok_eq env role handles false s, Bool.false_and]

/-- Once the accumulator is `false`, the whole run reports `false`: a
failure anywhere is never forgotten by the aggregate. -/
theorem runFrom_false (env : Env σ) (genReg verReg : Registry)
    (configs : List EnclaveAssertionAuthorityConfig) (s : σ) :
    (runFrom env genReg verReg configs false s).1 = false := by
  simp only [runFrom]
  rw [firstPass_false, fallbackPass_false, fallbackPass_false]

/-- The `ok` accumulator is conjunctive through the whole run. -/
theorem runFrom_ok_eq (env : Env σ) (genReg verReg : Registry)
    (configs : List EnclaveAssertionAuthorityConfig) (ok : Bool) (s : σ) :
    (runFrom env genReg verReg configs ok s).1 =
      (ok && (runFrom env genReg verReg configs true s).1) := by
  cases ok with
  | true => rw [Bool.true_and]
  | false => rw [runFrom_false, Bool.false_and]

/-- The state and trace of the whole run do not depend on the incoming
`ok` accumulator. -/
theorem runFrom_snd_eq (env : Env σ) (genReg verReg : Registry)
    (configs : List EnclaveAssertionAuthorityConfig) (ok ok' : Bool)
    (s : σ) :
    (runFrom env genReg verReg configs ok s).2 =
      (runFrom env genReg verReg configs ok' s).2 := by
  simp only [runFrom]
  rw [firstPass_snd_eq env genReg verReg configs ok ok' s,
      fallbackPass_snd_eq env Role.generator (genReg.map Prod.snd)
        (firstPass env genReg verReg configs ok s).1
        (firstPass env genReg verReg configs ok' s).1,
      fallbackPass_snd_eq env Role.verifier (verReg.map Prod.snd)
        (fallbackPass env Role.generator (genReg.map Prod.snd)
          (firstPass env genReg verReg configs ok s).1
          (firstPass env genReg verReg configs ok' s).2.1).1
        (fallbackPass env Role.generator (genReg.map Prod.snd)
          (firstPass env genReg verReg configs ok' s).1
          (firstPass env genReg verReg configs ok' s).2.1).1]

/-- The whole run's trace: the first-pass trace, then one
empty-configuration event per generator-registry entry, then one per
verifier-registry entry. -/
theorem runFrom_trace (env : Env σ) (genReg verReg : Registry)
    (configs : List EnclaveAssertionAuthorityConfig) (ok : Bool) (s : σ) :
    (runFrom env genReg verReg configs ok s).2.2 =
      (firstPass env genReg verReg configs ok s).2.2 ++
        ((genReg.map Prod.snd).map
            (fun h => InitEvent.mk Role.generator h "") ++
          (verReg.map Prod.snd).map
            (fun h => InitEvent.mk Role.verifier h "")) := by
  simp only [runFrom]
  rw [fallbackPass_trace, fallbackPass_trace]

/-- The authority state after the whole run is exactly the left fold of the
recorded `TryInitialize` transitions over the incoming state. -/
theorem runFrom_state_fold (env : Env σ) (genReg verReg : Registry)
    (configs : List EnclaveAssertionAuthorityConfig) (ok : Bool) (s : σ) :
    (runFrom env genReg verReg configs ok s).2.1 =
      List.foldl (applyEvent env) s
        (runFrom env genReg verReg configs ok s).2.2 := by
  simp only [runFrom]
  rw [List.foldl_append, List.foldl_append, ← firstPass_state_fold,
      ← fallbackPass_state_fold, ← fallbackPass_state_fold]

/-- Running on an appended record list is the first pass over the first
part followed by the whole run over the second part from the accumulated
`ok` and state, with the first part's trace prepended. -/
theorem runFrom_append (env : Env σ) (genReg verReg : Registry)
    (xs ys : List EnclaveAssertionAuthorityConfig) (ok : Bool) (s : σ) :
    runFrom env genReg verReg (xs ++ ys) ok s =
      ((runFrom env genReg verReg ys
          (firstPass env genReg verReg xs ok s).1
          (firstPass env genReg verReg xs ok s).2.1).1,
       (runFrom env genReg verReg ys
          (firstPass env genReg verReg xs ok s).1
          (firstPass env genReg verReg xs ok s).2.1).2.1,
       (firstPass env genReg verReg xs ok s).2.2 ++
         (runFrom env genReg verReg ys
            (firstPass env genReg verReg xs ok s).1
            (firstPass env genReg verReg xs ok s).2.1).2.2) := by
  simp only [runFrom]
  rw [firstPass_append]
  simp [List.append_assoc]

/-- The aggregate is `true` exactly when the first pass (started with a
true accumulator) reports no failure and each of the two fallback loops
(each judged from a true accumulator, at the state it actually runs from)
reports no failure. -/
theorem runFrom_true_iff (env : Env σ) (genReg verReg : Registry)
    (configs : List EnclaveAssertionAuthorityConfig) (s : σ) :
    (runFrom env genReg verReg configs true s).1 = true ↔
      ((firstPass env genReg verReg configs true s).1 = true ∧
        (fallbackPass env Role.generator (genReg.map Prod.snd) true
          (firstPass env genReg verReg configs true s).2.1).1 = true ∧
        (fallbackPass env Role.verifier (verReg.map Prod.snd) true
          (fallbackPass env Role.generator (genReg.map Prod.snd) true
            (firstPass env genReg verReg configs true s).2.1).2.1).1 =
          true) := by
  simp only [runFrom]
  cases hF : (firstPass env genReg verReg configs true s).1 with
  | false =>
      rw [fallbackPass_false env Role.generator]
      rw [fallbackPass_false env Role.verifier]
      simp
  | true =>
      cases hG : (fallbackPass env Role.generator (genReg.map Prod.snd)
          true (firstPass env genReg verReg configs true s).2.1).1 with
      | false =>
          rw [fallbackPass_false env Role.verifier]
          simp [hG]
      | true => simp [hG]

/-! ### Claim theorems -/

/-- C1: for every input sequence of configuration records and every pair of
registries, after a call to `InitializeEnclaveAssertionAuthorities` returns
(whether with success or failure), every authority enumerable in the
generator registry and every authority enumerable in the verifier registry
has received at least one `TryInitialize` call during that call. -/
theorem c1_completeness (env : Env σ) (w : World σ)
    (configs : List EnclaveAssertionAuthorityConfig) :
    (∀ h ∈ w.genRegistry.map Prod.snd,
        ∃ e ∈ (InitializeEnclaveAssertionAuthorities env w configs).2.2,
          e.role = Role.generator ∧ e.handle = h) ∧
    (∀ h ∈ w.verRegistry.map Prod.snd,
        ∃ e ∈ (InitializeEnclaveAssertionAuthorities env w configs).2.2,
          e.role = Role.verifier ∧ e.handle = h) := by
  constructor
  · intro h hmem
    refine ⟨⟨Role.generator, h, ""⟩, ?_, rfl, rfl⟩
    simp only [InitializeEnclaveAssertionAuthorities]
    rw [runFrom_trace]
    refine List.mem_append.mpr (Or.inr (List.mem_append.mpr (Or.inl ?_)))
    exact List.mem_map_of_mem _ hmem
  · intro h hmem
    refine ⟨⟨Role.verifier, h, ""⟩, ?_, rfl, rfl⟩
    simp only [InitializeEnclaveAssertionAuthorities]
    rw [runFrom_trace]
    refine List.mem_append.mpr (Or.inr (List.mem_append.mpr (Or.inr ?_)))
    exact List.mem_map_of_mem _ hmem

/-- Witness for C1 at a concrete environment and registries. -/
theorem c1_completeness_witness :
    0 ∈ (([("A", 0)] : Registry)).map Prod.snd ∧
    (∃ e ∈ (InitializeEnclaveAssertionAuthorities
        (Env.mk (fun _ a => some a) (fun _ _ _ s => (true, s + 1)))
        (World.mk [("A", 0)] [("A", 7)] (0 : Nat)) []).2.2,
      e.role = Role.generator ∧ e.handle = 0) :=
  ⟨by decide,
   (c1_completeness
      (Env.mk (fun _ a => some a) (fun _ _ _ s => (true, s + 1)))
      (World.mk [("A", 0)] [("A", 7)] (0 : Nat)) []).1 0 (by decide)⟩

/-- C3: the call returns success exactly when no failure of any kind
occurred (first pass clean, both fallback loops clean); any other outcome
is the one fixed generic aggregate failure status, carrying no
per-authority detail. -/
theorem c3_aggregate_status (env : Env σ) (w : World σ)
    (configs : List EnclaveAssertionAuthorityConfig) :
    ((InitializeEnclaveAssertionAuthorities env w configs).1 =
        Status.okStatus ↔
      ((firstPass env w.genRegistry w.verRegistry configs true w.auth).1 =
          true ∧
        (fallbackPass env Role.generator (w.genRegistry.map Prod.snd) true
          (firstPass env w.genRegistry w.verRegistry configs true
            w.auth).2.1).1 = true ∧
        (fallbackPass env Role.verifier (w.verRegistry.map Prod.snd) true
          (fallbackPass env Role.generator (w.genRegistry.map Prod.snd) true
            (firstPass env w.genRegistry w.verRegistry configs true
              w.auth).2.1).2.1).1 = true)) ∧
    ((InitializeEnclaveAssertionAuthorities env w configs).1 =
        Status.okStatus ∨
      (InitializeEnclaveAssertionAuthorities env w configs).1 =
        internalAggregateStatus) := by
  simp only [InitializeEnclaveAssertionAuthorities]
  cases hR : (runFrom env w.genRegistry w.verRegistry configs true
      w.auth).1 with
  | true =>
      refine ⟨⟨fun _ => (runFrom_true_iff env w.genRegistry w.verRegistry
        configs w.auth).mp hR, fun _ => by simp⟩, Or.inl (by simp)⟩
  | false =>
      refine ⟨⟨fun hcontra => ?_, fun hFGV => ?_⟩, Or.inr (by simp)⟩
      · simp [Status.okStatus, internalAggregateStatus] at hcontra
      · have h1 : (runFrom env w.genRegistry w.verRegistry configs true
            w.auth).1 = true :=
          (runFrom_true_iff env w.genRegistry w.verRegistry configs
            w.auth).mpr hFGV
        rw [hR] at h1
        cases h1

/-- C4: the second (fallback) stage appends to the first-pass trace exactly
one empty-configuration `TryInitialize` event per generator-registry entry
and then one per verifier-registry entry — all entries, matched or not —
and the aggregate is the conjunction of the first pass's and both fallback
loops' outcomes. -/
theorem c4_fallback_pass (env : Env σ) (w : World σ)
    (configs : List EnclaveAssertionAuthorityConfig) :
    (InitializeEnclaveAssertionAuthorities env w configs).2.2 =
      (firstPass env w.genRegistry w.verRegistry configs true
          w.auth).2.2 ++
        ((w.genRegistry.map Prod.snd).map
            (fun h => InitEvent.mk Role.generator h "") ++
          (w.verRegistry.map Prod.snd).map
            (fun h => InitEvent.mk Role.verifier h "")) ∧
    (runFrom env w.genRegistry w.verRegistry configs true w.auth).1 =
      ((firstPass env w.genRegistry w.verRegistry configs true w.auth).1 &&
        ((fallbackPass env Role.generator (w.genRegistry.map Prod.snd) true
            (firstPass env w.genRegistry w.verRegistry configs true
              w.auth).2.1).1 &&
          (fallbackPass env Role.verifier (w.verRegistry.map Prod.snd) true
            (fallbackPass env Role.generator (w.genRegistry.map Prod.snd)
              true (firstPass env w.genRegistry w.verRegistry configs true
                w.auth).2.1).2.1).1)) := by
  constructor
  · simp only [InitializeEnclaveAssertionAuthorities]
    exact runFrom_trace env w.genRegistry w.verRegistry configs true w.auth
  · cases hF : (firstPass env w.genRegistry w.verRegistry configs true
        w.auth).1 with
    | false =>
        simp only [runFrom, hF]
        rw [fallbackPass_false env Role.generator]
        rw [fallbackPass_false env Role.verifier, Bool.false_and]
    | true =>
        simp only [runFrom, hF, Bool.true_and]
        cases hG : (fallbackPass env Role.generator
            (w.genRegistry.map Prod.snd) true
            (firstPass env w.genRegistry w.verRegistry configs true
              w.auth).2.1).1 with
        | false =>
            rw [fallbackPass_false env Role.verifier, Bool.false_and]
        | true => rw [Bool.true_and]

/-- C7: with an empty configuration sequence the call still performs the
two fallback loops — one empty-configuration `TryInitialize` event per
registered generator and verifier — and returns success exactly when both
loops report no failure. -/
theorem c7_empty_input (env : Env σ) (w : World σ) :
    (InitializeEnclaveAssertionAuthorities env w []).2.2 =
      (w.genRegistry.map Prod.snd).map
          (fun h => InitEvent.mk Role.generator h "") ++
        (w.verRegistry.map Prod.snd).map
          (fun h => InitEvent.mk Role.verifier h "") ∧
    ((InitializeEnclaveAssertionAuthorities env w []).1 = Status.okStatus ↔
      ((fallbackPass env Role.generator (w.genRegistry.map Prod.snd) true
          w.auth).1 = true ∧
        (fallbackPass env Role.verifier (w.verRegistry.map Prod.snd) true
          (fallbackPass env Role.generator (w.genRegistry.map Prod.snd)
            true w.auth).2.1).1 = true)) := by
  constructor
  · simp only [InitializeEnclaveAssertionAuthorities]
    rw [runFrom_trace]
    simp [firstPass]
  · simp only [InitializeEnclaveAssertionAuthorities]
    cases hR : (runFrom env w.genRegistry w.verRegistry [] true
        w.auth).1 with
    | true =>
        have hconds := (runFrom_true_iff env w.genRegistry w.verRegistry
          [] w.auth).mp hR
        have hG := hconds.2.1
        have hV := hconds.2.2
        simp only [firstPass] at hG hV
        exact ⟨fun _ => ⟨hG, hV⟩, fun _ => by simp⟩
    | false =>
        refine ⟨fun hcontra => ?_, fun hGV => ?_⟩
        · simp [Status.okStatus, internalAggregateStatus] at hcontra
        · have h1 : (runFrom env w.genRegistry w.verRegistry [] true
              w.auth).1 = true := by
            apply (runFrom_true_iff env w.genRegistry w.verRegistry []
              w.auth).mpr
            refine ⟨by simp [firstPass], ?_, ?_⟩
            · simpa [firstPass] using hGV.1
            · simpa [firstPass] using hGV.2
          rw [hR] at h1
          cases h1

/-- C2: an identifier-derivation failure or an unmatched-authority failure
at a record only sets the accumulator to false; the remaining records and
the fallback passes run exactly as the run over the remaining records with
a false accumulator from the state the record left, with the record's own
events prepended — nothing after the failing record is skipped. -/
theorem c2_non_short_circuit (env : Env σ) (genReg verReg : Registry)
    (c : EnclaveAssertionAuthorityConfig)
    (post : List EnclaveAssertionAuthorityConfig) (ok : Bool) (s : σ)
    (hfail : derivationFails env c ∨ unmatchedIn env genReg c ∨
      unmatchedIn env verReg c) :
    (handleRecord env genReg verReg c ok s).1 = false ∧
    runFrom env genReg verReg (c :: post) ok s =
      ((runFrom env genReg verReg post false
          (handleRecord env genReg verReg c ok s).2.1).1,
       (runFrom env genReg verReg post false
          (handleRecord env genReg verReg c ok s).2.1).2.1,
       (handleRecord env genReg verReg c ok s).2.2 ++
         (runFrom env genReg verReg post false
            (handleRecord env genReg verReg c ok s).2.1).2.2) := by
  simp only [derivationFails, unmatchedIn] at hfail
  have h1 : (handleRecord env genReg verReg c ok s).1 = false := by
    rcases hfail with hd | ⟨id, hid, hnone⟩ | ⟨id, hid, hnone⟩
    · simp [handleRecord, hd]
    · cases hv : verReg.lookup id <;>
        simp [handleRecord, hid, lookupStep, hnone, hv]
    · cases hg : genReg.lookup id <;>
        simp [handleRecord, hid, lookupStep, hg, hnone]
  refine ⟨h1, ?_⟩
  simp only [runFrom, firstPass]
  rw [h1]
  simp [List.append_assoc]

/-- Witness for C2: a derivation failure on the only record of a concrete
run. -/
theorem c2_non_short_circuit_witness :
    derivationFails (Env.mk (fun _ _ => none)
        (fun _ _ _ (s : Nat) => (true, s + 1))) ⟨⟨1, "A"⟩, "x"⟩ ∧
    ((handleRecord (Env.mk (fun _ _ => none)
          (fun _ _ _ (s : Nat) => (true, s + 1))) [("A", 0)] []
        ⟨⟨1, "A"⟩, "x"⟩ true 0).1 = false ∧
      runFrom (Env.mk (fun _ _ => none)
          (fun _ _ _ (s : Nat) => (true, s + 1))) [("A", 0)] []
        [⟨⟨1, "A"⟩, "x"⟩] true 0 =
        ((runFrom (Env.mk (fun _ _ => none)
            (fun _ _ _ (s : Nat) => (true, s + 1))) [("A", 0)] [] [] false
            (handleRecord (Env.mk (fun _ _ => none)
                (fun _ _ _ (s : Nat) => (true, s + 1))) [("A", 0)] []
              ⟨⟨1, "A"⟩, "x"⟩ true 0).2.1).1,
         (runFrom (Env.mk (fun _ _ => none)
            (fun _ _ _ (s : Nat) => (true, s + 1))) [("A", 0)] [] [] false
            (handleRecord (Env.mk (fun _ _ => none)
                (fun _ _ _ (s : Nat) => (true, s + 1))) [("A", 0)] []
              ⟨⟨1, "A"⟩, "x"⟩ true 0).2.1).2.1,
         (handleRecord (Env.mk (fun _ _ => none)
              (fun _ _ _ (s : Nat) => (true, s + 1))) [("A", 0)] []
            ⟨⟨1, "A"⟩, "x"⟩ true 0).2.2 ++
           (runFrom (Env.mk (fun _ _ => none)
              (fun _ _ _ (s : Nat) => (true, s + 1))) [("A", 0)] [] []
              false
              (handleRecord (Env.mk (fun _ _ => none)
                  (fun _ _ _ (s : Nat) => (true, s + 1))) [("A", 0)] []
                ⟨⟨1, "A"⟩, "x"⟩ true 0).2.1).2.2)) :=
  ⟨by simp [derivationFails],
   c2_non_short_circuit (Env.mk (fun _ _ => none)
      (fun _ _ _ (s : Nat) => (true, s + 1))) [("A", 0)] []
    ⟨⟨1, "A"⟩, "x"⟩ [] true 0 (Or.inl (by simp [derivationFails]))⟩

/-- C6: a record whose derived identifier matches neither registry makes
the overall result the generic aggregate failure, yet the rest of the call
— every other record and both fallback loops — produces exactly the world
and trace it would have produced had the record not been there. -/
theorem c6_no_match_tolerance (env : Env σ) (w : World σ)
    (pre post : List EnclaveAssertionAuthorityConfig)
    (c : EnclaveAssertionAuthorityConfig) (id : String)
    (hid : env.generateAuthorityId c.description.identity_type
      c.description.authority_type = some id)
    (hg : w.genRegistry.lookup id = none)
    (hv : w.verRegistry.lookup id = none) :
    (InitializeEnclaveAssertionAuthorities env w (pre ++ c :: post)).1 =
      internalAggregateStatus ∧
    (InitializeEnclaveAssertionAuthorities env w (pre ++ c :: post)).2 =
      (InitializeEnclaveAssertionAuthorities env w (pre ++ post)).2 ∧
    (∀ h ∈ w.genRegistry.map Prod.snd,
        InitEvent.mk Role.generator h "" ∈
          (InitializeEnclaveAssertionAuthorities env w
            (pre ++ c :: post)).2.2) ∧
    (∀ h ∈ w.verRegistry.map Prod.snd,
        InitEvent.mk Role.verifier h "" ∈
          (InitializeEnclaveAssertionAuthorities env w
            (pre ++ c :: post)).2.2) := by
  have hrec : ∀ (ok : Bool) (s : σ),
      handleRecord env w.genRegistry w.verRegistry c ok s = (false, s, []) := by
    intro ok s
    simp [handleRecord, hid, lookupStep, hg, hv]
  have hfp : ∀ (ok : Bool) (s : σ),
      firstPass env w.genRegistry w.verRegistry (c :: post) ok s =
        firstPass env w.genRegistry w.verRegistry post false s := by
    intro ok s
    simp [firstPass, hrec]
  have hrun : ∀ (ok : Bool) (s : σ),
      runFrom env w.genRegistry w.verRegistry (c :: post) ok s =
        runFrom env w.genRegistry w.verRegistry post false s := by
    intro ok s
    simp only [runFrom]
    rw [hfp]
  have hfalse : (runFrom env w.genRegistry w.verRegistry (pre ++ c :: post)
      true w.auth).1 = false := by
    rw [runFrom_append, hrun]
    simp [runFrom_false]
  refine ⟨?_, ?_, ?_, ?_⟩
  · simp only [InitializeEnclaveAssertionAuthorities]
    rw [hfalse]
    simp
  · simp only [InitializeEnclaveAssertionAuthorities]
    have h2 : (runFrom env w.genRegistry w.verRegistry (pre ++ c :: post)
        true w.auth).2 =
        (runFrom env w.genRegistry w.verRegistry (pre ++ post) true
          w.auth).2 := by
      rw [runFrom_append, runFrom_append, hrun]
      simp only []
      rw [runFrom_snd_eq env w.genRegistry w.verRegistry post false
            (firstPass env w.genRegistry w.verRegistry pre true w.auth).1
            (firstPass env w.genRegistry w.verRegistry pre true
              w.auth).2.1]
    rw [h2]
  · intro h hm
    simp only [InitializeEnclaveAssertionAuthorities]
    rw [runFrom_trace]
    refine List.mem_append.mpr (Or.inr (List.mem_append.mpr (Or.inl ?_)))
    exact List.mem_map_of_mem _ hm
  · intro h hm
    simp only [InitializeEnclaveAssertionAuthorities]
    rw [runFrom_trace]
    refine List.mem_append.mpr (Or.inr (List.mem_append.mpr (Or.inr ?_)))
    exact List.mem_map_of_mem _ hm

/-- Witness for C6 at a concrete environment: one unmatched record with
both registries nonempty; both authorities still end initialized while the
call reports the aggregate failure. -/
theorem c6_no_match_tolerance_witness :
    latchEnv.generateAuthorityId (1 : Nat) "B" = some "B" ∧
    (([("A", 0)] : Registry)).lookup "B" = none ∧
    (([("A", 5)] : Registry)).lookup "B" = none ∧
    ((InitializeEnclaveAssertionAuthorities latchEnv
        (World.mk [("A", 0)] [("A", 5)] [])
        ([] ++ ⟨⟨1, "B"⟩, "x"⟩ :: [])).1 = internalAggregateStatus ∧
      (InitializeEnclaveAssertionAuthorities latchEnv
          (World.mk [("A", 0)] [("A", 5)] [])
          ([] ++ ⟨⟨1, "B"⟩, "x"⟩ :: [])).2 =
        (InitializeEnclaveAssertionAuthorities latchEnv
            (World.mk [("A", 0)] [("A", 5)] []) ([] ++ [])).2 ∧
      (∀ h ∈ ((World.mk [("A", 0)] [("A", 5)]
            ([] : List (Role × Nat))).genRegistry).map Prod.snd,
          InitEvent.mk Role.generator h "" ∈
            (InitializeEnclaveAssertionAuthorities latchEnv
              (World.mk [("A", 0)] [("A", 5)] [])
              ([] ++ ⟨⟨1, "B"⟩, "x"⟩ :: [])).2.2) ∧
      (∀ h ∈ ((World.mk [("A", 0)] [("A", 5)]
            ([] : List (Role × Nat))).verRegistry).map Prod.snd,
          InitEvent.mk Role.verifier h "" ∈
            (InitializeEnclaveAssertionAuthorities latchEnv
              (World.mk [("A", 0)] [("A", 5)] [])
              ([] ++ ⟨⟨1, "B"⟩, "x"⟩ :: [])).2.2)) ∧
    latchInitialized Role.generator 0
      (InitializeEnclaveAssertionAuthorities latchEnv
        (World.mk [("A", 0)] [("A", 5)] [])
        ([] ++ ⟨⟨1, "B"⟩, "x"⟩ :: [])).2.1.auth = true ∧
    latchInitialized Role.verifier 5
      (InitializeEnclaveAssertionAuthorities latchEnv
        (World.mk [("A", 0)] [("A", 5)] [])
        ([] ++ ⟨⟨1, "B"⟩, "x"⟩ :: [])).2.1.auth = true :=
  ⟨by decide, by decide, by decide,
   c6_no_match_tolerance latchEnv (World.mk [("A", 0)] [("A", 5)] [])
    [] [] ⟨⟨1, "B"⟩, "x"⟩ "B" (by decide) (by decide) (by decide),
   by decide, by decide⟩

/-- C8: the call leaves both registries' entry sets untouched, and the
final authority state is exactly the left fold of the recorded
`TryInitialize` transitions over the initial state — no other state
change, and no rollback on failure. -/
theorem c8_frame_effects (env : Env σ) (w : World σ)
    (configs : List EnclaveAssertionAuthorityConfig) :
    ((InitializeEnclaveAssertionAuthorities env w configs).2.1).genRegistry =
      w.genRegistry ∧
    ((InitializeEnclaveAssertionAuthorities env w configs).2.1).verRegistry =
      w.verRegistry ∧
    ((InitializeEnclaveAssertionAuthorities env w configs).2.1).auth =
      List.foldl (applyEvent env) w.auth
        (InitializeEnclaveAssertionAuthorities env w configs).2.2 := by
  refine ⟨rfl, rfl, ?_⟩
  simp only [InitializeEnclaveAssertionAuthorities]
  exact runFrom_state_fold env w.genRegistry w.verRegistry configs true
    w.auth

/-- C9: an authority present in either registry whose first-pass
`TryInitialize` with a record's provided configuration fails is still
called with the empty configuration by the fallback pass of the same call,
and the call's aggregate result is the generic failure — for a generator
judged at the state the record's processing reached, and for a verifier
judged at the state left by the record's generator block. -/
theorem c9_fallback_after_failure (env : Env σ) (w : World σ)
    (pre post : List EnclaveAssertionAuthorityConfig)
    (c : EnclaveAssertionAuthorityConfig) (id : String)
    (hid : env.generateAuthorityId c.description.identity_type
      c.description.authority_type = some id) :
    (∀ g, w.genRegistry.lookup id = some g →
      (env.tryInitialize Role.generator g c.config
          (firstPass env w.genRegistry w.verRegistry pre true
            w.auth).2.1).1 = false →
      InitEvent.mk Role.generator g c.config ∈
        (InitializeEnclaveAssertionAuthorities env w
          (pre ++ c :: post)).2.2 ∧
      InitEvent.mk Role.generator g "" ∈
        (InitializeEnclaveAssertionAuthorities env w
          (pre ++ c :: post)).2.2 ∧
      (InitializeEnclaveAssertionAuthorities env w (pre ++ c :: post)).1 =
        internalAggregateStatus) ∧
    (∀ v, w.verRegistry.lookup id = some v →
      (env.tryInitialize Role.verifier v c.config
          (lookupStep env w.genRegistry Role.generator id c.config
            (firstPass env w.genRegistry w.verRegistry pre true w.auth).1
            (firstPass env w.genRegistry w.verRegistry pre true
              w.auth).2.1).2.1).1 = false →
      InitEvent.mk Role.verifier v c.config ∈
        (InitializeEnclaveAssertionAuthorities env w
          (pre ++ c :: post)).2.2 ∧
      InitEvent.mk Role.verifier v "" ∈
        (InitializeEnclaveAssertionAuthorities env w
          (pre ++ c :: post)).2.2 ∧
      (InitializeEnclaveAssertionAuthorities env w (pre ++ c :: post)).1 =
        internalAggregateStatus) := by
  have htrace : (InitializeEnclaveAssertionAuthorities env w
      (pre ++ c :: post)).2.2 =
      (firstPass env w.genRegistry w.verRegistry pre true w.auth).2.2 ++
        (runFrom env w.genRegistry w.verRegistry (c :: post)
          (firstPass env w.genRegistry w.verRegistry pre true w.auth).1
          (firstPass env w.genRegistry w.verRegistry pre true
            w.auth).2.1).2.2 := by
    simp only [InitializeEnclaveAssertionAuthorities]
    rw [runFrom_append]
  have hstatus : (handleRecord env w.genRegistry w.verRegistry c
      (firstPass env w.genRegistry w.verRegistry pre true w.auth).1
      (firstPass env w.genRegistry w.verRegistry pre true
        w.auth).2.1).1 = false →
      (InitializeEnclaveAssertionAuthorities env w (pre ++ c :: post)).1 =
        internalAggregateStatus := by
    intro hrec
    have hcp : (runFrom env w.genRegistry w.verRegistry (c :: post)
        (firstPass env w.genRegistry w.verRegistry pre true w.auth).1
        (firstPass env w.genRegistry w.verRegistry pre true
          w.auth).2.1).1 = false := by
      simp only [runFrom, firstPass]
      rw [hrec, firstPass_false, fallbackPass_false, fallbackPass_false]
    have hfull : (runFrom env w.genRegistry w.verRegistry
        (pre ++ c :: post) true w.auth).1 = false := by
      rw [runFrom_append]
      simpa using hcp
    simp only [InitializeEnclaveAssertionAuthorities]
    rw [hfull]
    simp
  constructor
  · intro g hg hfail
    have hmemrec : InitEvent.mk Role.generator g c.config ∈
        (handleRecord env w.genRegistry w.verRegistry c
          (firstPass env w.genRegistry w.verRegistry pre true w.auth).1
          (firstPass env w.genRegistry w.verRegistry pre true
            w.auth).2.1).2.2 := by
      cases hv : w.verRegistry.lookup id <;>
        simp [handleRecord, hid, lookupStep, hg, hv]
    have hrecfalse : (handleRecord env w.genRegistry w.verRegistry c
        (firstPass env w.genRegistry w.verRegistry pre true w.auth).1
        (firstPass env w.genRegistry w.verRegistry pre true
          w.auth).2.1).1 = false := by
      cases hv : w.verRegistry.lookup id <;>
        simp [handleRecord, hid, lookupStep, hg, hv, hfail]
    refine ⟨?_, ?_, hstatus hrecfalse⟩
    · rw [htrace]
      refine List.mem_append.mpr (Or.inr ?_)
      rw [runFrom_trace]
      refine List.mem_append.mpr (Or.inl ?_)
      simp only [firstPass]
      exact List.mem_append.mpr (Or.inl hmemrec)
    · simp only [InitializeEnclaveAssertionAuthorities]
      rw [runFrom_trace]
      refine List.mem_append.mpr (Or.inr (List.mem_append.mpr
        (Or.inl ?_)))
      exact List.mem_map_of_mem _ (lookup_mem_values w.genRegistry id g hg)
  · intro v hv hfail
    have hmemrec : InitEvent.mk Role.verifier v c.config ∈
        (handleRecord env w.genRegistry w.verRegistry c
          (firstPass env w.genRegistry w.verRegistry pre true w.auth).1
          (firstPass env w.genRegistry w.verRegistry pre true
            w.auth).2.1).2.2 := by
      cases hgl : w.genRegistry.lookup id <;>
        simp [handleRecord, hid, lookupStep, hgl, hv]
    have hrecfalse : (handleRecord env w.genRegistry w.verRegistry c
        (firstPass env w.genRegistry w.verRegistry pre true w.auth).1
        (firstPass env w.genRegistry w.verRegistry pre true
          w.auth).2.1).1 = false := by
      cases hgl : w.genRegistry.lookup id with
      | none =>
          simp only [lookupStep, hgl] at hfail
          simp [handleRecord, hid, lookupStep, hgl, hv, hfail]
      | some g =>
          simp only [lookupStep, hgl] at hfail
          simp [handleRecord, hid, lookupStep, hgl, hv, hfail]
    refine ⟨?_, ?_, hstatus hrecfalse⟩
    · rw [htrace]
      refine List.mem_append.mpr (Or.inr ?_)
      rw [runFrom_trace]
      refine List.mem_append.mpr (Or.inl ?_)
      simp only [firstPass]
      exact List.mem_append.mpr (Or.inl hmemrec)
    · simp only [InitializeEnclaveAssertionAuthorities]
      rw [runFrom_trace]
      refine List.mem_append.mpr (Or.inr (List.mem_append.mpr
        (Or.inr ?_)))
      exact List.mem_map_of_mem _ (lookup_mem_values w.verRegistry id v hv)

/-- Witness for C9: a generator and a verifier that both reject the
provided configuration but accept the empty one; the fallback pass
initializes both anyway while the call reports failure. -/
theorem c9_fallback_after_failure_witness :
    rejectCfgEnv.generateAuthorityId (1 : Nat) "A" = some "A" ∧
    (([("A", 0)] : Registry)).lookup "A" = some 0 ∧
    (([("A", 5)] : Registry)).lookup "A" = some 5 ∧
    (rejectCfgEnv.tryInitialize Role.generator 0 "x"
      (firstPass rejectCfgEnv [("A", 0)] [("A", 5)] [] true 0).2.1).1 =
      false ∧
    (rejectCfgEnv.tryInitialize Role.verifier 5 "x"
      (lookupStep rejectCfgEnv [("A", 0)] Role.generator "A" "x"
        (firstPass rejectCfgEnv [("A", 0)] [("A", 5)] [] true 0).1
        (firstPass rejectCfgEnv [("A", 0)] [("A", 5)] []
          true 0).2.1).2.1).1 = false ∧
    (InitEvent.mk Role.generator 0 "x" ∈
        (InitializeEnclaveAssertionAuthorities rejectCfgEnv
          (World.mk [("A", 0)] [("A", 5)] 0)
          ([] ++ ⟨⟨1, "A"⟩, "x"⟩ :: [])).2.2 ∧
      InitEvent.mk Role.generator 0 "" ∈
        (InitializeEnclaveAssertionAuthorities rejectCfgEnv
          (World.mk [("A", 0)] [("A", 5)] 0)
          ([] ++ ⟨⟨1, "A"⟩, "x"⟩ :: [])).2.2 ∧
      (InitializeEnclaveAssertionAuthorities rejectCfgEnv
          (World.mk [("A", 0)] [("A", 5)] 0)
          ([] ++ ⟨⟨1, "A"⟩, "x"⟩ :: [])).1 = internalAggregateStatus) ∧
    (InitEvent.mk Role.verifier 5 "x" ∈
        (InitializeEnclaveAssertionAuthorities rejectCfgEnv
          (World.mk [("A", 0)] [("A", 5)] 0)
          ([] ++ ⟨⟨1, "A"⟩, "x"⟩ :: [])).2.2 ∧
      InitEvent.mk Role.verifier 5 "" ∈
        (InitializeEnclaveAssertionAuthorities rejectCfgEnv
          (World.mk [("A", 0)] [("A", 5)] 0)
          ([] ++ ⟨⟨1, "A"⟩, "x"⟩ :: [])).2.2 ∧
      (InitializeEnclaveAssertionAuthorities rejectCfgEnv
          (World.mk [("A", 0)] [("A", 5)] 0)
          ([] ++ ⟨⟨1, "A"⟩, "x"⟩ :: [])).1 = internalAggregateStatus) ∧
    (InitializeEnclaveAssertionAuthorities rejectCfgEnv
        (World.mk [("A", 0)] [("A", 5)] 0)
        ([] ++ ⟨⟨1, "A"⟩, "x"⟩ :: [])).2.1.auth = 2 :=
  ⟨by decide, by decide, by decide, by decide, by decide,
   (c9_fallback_after_failure rejectCfgEnv
      (World.mk [("A", 0)] [("A", 5)] 0) [] [] ⟨⟨1, "A"⟩, "x"⟩ "A"
      (by decide)).1 0 (by decide) (by decide),
   (c9_fallback_after_failure rejectCfgEnv
      (World.mk [("A", 0)] [("A", 5)] 0) [] [] ⟨⟨1, "A"⟩, "x"⟩ "A"
      (by decide)).2 5 (by decide) (by decide),
   by decide⟩

/-- C10: for a record whose identifier derivation succeeds, the record's
processing factorizes into a generator-side step mentioning only the
generator registry, computed first, followed by a verifier-side step
applied unconditionally to the generator side's output; whenever the
verifier registry has a matching entry its `TryInitialize` call with the
record's configuration is in the trace, irrespective of the generator
side, and a missing verifier entry forces a false accumulator; the
symmetric generator-side facts hold irrespective of the verifier side. -/
theorem c10_sides_independent (env : Env σ) (genReg verReg : Registry)
    (c : EnclaveAssertionAuthorityConfig) (ok : Bool) (s : σ)
    (id : String)
    (hid : env.generateAuthorityId c.description.identity_type
      c.description.authority_type = some id) :
    handleRecord env genReg verReg c ok s =
      ((lookupStep env verReg Role.verifier id c.config
          (lookupStep env genReg Role.generator id c.config ok s).1
          (lookupStep env genReg Role.generator id c.config ok s).2.1).1,
       (lookupStep env verReg Role.verifier id c.config
          (lookupStep env genReg Role.generator id c.config ok s).1
          (lookupStep env genReg Role.generator id c.config ok s).2.1).2.1,
       (lookupStep env genReg Role.generator id c.config ok s).2.2 ++
         (lookupStep env verReg Role.verifier id c.config
            (lookupStep env genReg Role.generator id c.config ok s).1
            (lookupStep env genReg Role.generator id c.config
              ok s).2.1).2.2) ∧
    (∀ v, verReg.lookup id = some v →
        InitEvent.mk Role.verifier v c.config ∈
          (handleRecord env genReg verReg c ok s).2.2) ∧
    (verReg.lookup id = none →
        (handleRecord env genReg verReg c ok s).1 = false) ∧
    (∀ g, genReg.lookup id = some g →
        InitEvent.mk Role.generator g c.config ∈
          (handleRecord env genReg verReg c ok s).2.2) := by
  refine ⟨?_, ?_, ?_, ?_⟩
  · simp [handleRecord, hid]
  · intro v hv
    cases hgl : genReg.lookup id <;>
      simp [handleRecord, hid, lookupStep, hgl, hv]
  · intro hv
    cases hgl : genReg.lookup id <;>
      simp [handleRecord, hid, lookupStep, hgl, hv]
  · intro g hgl
    cases hv : verReg.lookup id <;>
      simp [handleRecord, hid, lookupStep, hgl, hv]

/-- Witness for C10: a record matched by the verifier registry while the
generator registry has no entry; the verifier call is still made. -/
theorem c10_sides_independent_witness :
    (Env.mk (fun _ a => some a)
        (fun _ _ _ (s : Nat) => (true, s + 1))).generateAuthorityId
      (1 : Nat) "A" = some "A" ∧
    (([("A", 5)] : Registry)).lookup "A" = some 5 ∧
    InitEvent.mk Role.verifier 5 "x" ∈
      (handleRecord (Env.mk (fun _ a => some a)
          (fun _ _ _ (s : Nat) => (true, s + 1))) [] [("A", 5)]
        ⟨⟨1, "A"⟩, "x"⟩ true 0).2.2 :=
  ⟨by decide, by decide,
   ((c10_sides_independent (Env.mk (fun _ a => some a)
        (fun _ _ _ (s : Nat) => (true, s + 1))) [] [("A", 5)]
      ⟨⟨1, "A"⟩, "x"⟩ true 0 "A" (by decide)).2.1) 5 (by decide)⟩

/-- Under the latch contract, an authority that is initialized stays
initialized across any single `TryInitialize` call. -/
theorem initialized_preserved (env : Env σ)
    (initialized : Role → Nat → σ → Bool)
    (hc : LatchContract env initialized) (r' : Role) (h' : Nat)
    (r : Role) (h : Nat) (cfg : String) (s : σ)
    (hs : initialized r' h' s = true) :
    initialized r' h' (env.tryInitialize r h cfg s).2 = true := by
  by_cases hrr : r = r' ∧ h = h'
  · obtain ⟨rfl, rfl⟩ := hrr
    rw [hc.noop r h cfg s hs]
    exact hs
  · rw [hc.frame r h cfg s r' h' (not_and_or.mp hrr)]
    exact hs

/-- Under the latch contract, an authority that is initialized stays
initialized across any sequence of recorded `TryInitialize` calls. -/
theorem initialized_preserved_fold (env : Env σ)
    (initialized : Role → Nat → σ → Bool)
    (hc : LatchContract env initialized) (r' : Role) (h' : Nat) :
    ∀ (evs : List InitEvent) (s : σ),
      initialized r' h' s = true →
      initialized r' h' (List.foldl (applyEvent env) s evs) = true := by
  intro evs
  induction evs with
  | nil => intro s hs; exact hs
  | cons e rest ih =>
      intro s hs
      simp only [List.foldl_cons]
      exact ih _ (initialized_preserved env initialized hc r' h'
        e.role e.handle e.config s hs)

/-- Under the latch contract, a fallback loop that reports success leaves
every handle it visited initialized at the loop's final state. -/
theorem fallbackPass_initializes (env : Env σ)
    (initialized : Role → Nat → σ → Bool)
    (hc : LatchContract env initialized) (role : Role) :
    ∀ (handles : List Nat) (ok : Bool) (s : σ),
      (fallbackPass env role handles ok s).1 = true →
      ∀ h ∈ handles,
        initialized role h (fallbackPass env role handles ok s).2.1 =
          true := by
  intro handles
  induction handles with
  | nil => intro ok s _ h hm; cases hm
  | cons h0 rest ih =>
      intro ok s htrue h hm
      simp only [fallbackPass] at htrue ⊢
      rcases List.mem_cons.mp hm with rfl | hmem
      · have hok : (ok && (env.tryInitialize role h "" s).1) = true := by
          by_contra hne
          have hfalse : (ok && (env.tryInitialize role h "" s).1) =
              false := by
            cases hb : (ok && (env.tryInitialize role h "" s).1)
            · rfl
            · exact absurd hb hne
          rw [fallbackPass_ok_eq, hfalse, Bool.false_and] at htrue
          cases htrue
        have hr : (env.tryInitialize role h "" s).1 = true := by
          simp only [Bool.and_eq_true] at hok
          exact hok.2
        have hinit := hc.latch role h "" s hr
        rw [fallbackPass_state_fold]
        exact initialized_preserved_fold env initialized hc role h _ _
          hinit
      · exact ih (ok && (env.tryInitialize role h0 "" s).1)
          (env.tryInitialize role h0 "" s).2 htrue h hmem

/-- A first pass that reports success found, for every record, a derived
identifier matched in both registries. -/
theorem firstPass_true_elim (env : Env σ) (genReg verReg : Registry) :
    ∀ (configs : List EnclaveAssertionAuthorityConfig) (ok : Bool) (s : σ),
      (firstPass env genReg verReg configs ok s).1 = true →
      ∀ c ∈ configs, ∃ id,
        env.generateAuthorityId c.description.identity_type
          c.description.authority_type = some id ∧
        (∃ g, genReg.lookup id = some g) ∧
        (∃ v, verReg.lookup id = some v) := by
  intro configs
  induction configs with
  | nil => intro ok s _ c hcm; cases hcm
  | cons c rest ih =>
      intro ok s htrue c' hc'
      have hhead : (handleRecord env genReg verReg c ok s).1 = true := by
        by_contra hne
        have hfalse : (handleRecord env genReg verReg c ok s).1 =
            false := by
          cases hb : (handleRecord env genReg verReg c ok s).1
          · rfl
          · exact absurd hb hne
        simp only [firstPass] at htrue
        rw [firstPass_ok_eq, hfalse, Bool.false_and] at htrue
        cases htrue
      rcases List.mem_cons.mp hc' with rfl | hmem
      · cases hid : env.generateAuthorityId c'.description.identity_type
            c'.description.authority_type with
        | none => simp [handleRecord, hid] at hhead
        | some id =>
            cases hg : genReg.lookup id with
            | none =>
                cases hv : verReg.lookup id <;>
                  simp [handleRecord, hid, lookupStep, hg, hv] at hhead
            | some g =>
                cases hv : verReg.lookup id with
                | none =>
                    simp [handleRecord, hid, lookupStep, hg, hv] at hhead
                | some v => exact ⟨id, rfl, ⟨g, hg⟩, ⟨v, hv⟩⟩
      · have hrest : (firstPass env genReg verReg rest
            (handleRecord env genReg verReg c ok s).1
            (handleRecord env genReg verReg c ok s).2.1).1 = true := by
          simp only [firstPass] at htrue
          exact htrue
        exact ih _ _ hrest c' hmem

/-- When every handle a fallback loop will visit is already initialized,
the loop is a pure success no-op on the state. -/
theorem fallbackPass_stable (env : Env σ)
    (initialized : Role → Nat → σ → Bool)
    (hc : LatchContract env initialized) (role : Role) :
    ∀ (handles : List Nat) (ok : Bool) (s : σ),
      (∀ h ∈ handles, initialized role h s = true) →
      fallbackPass env role handles ok s =
        (ok, s, handles.map (fun h => InitEvent.mk role h "")) := by
  intro handles
  induction handles with
  | nil => intro ok s _; rfl
  | cons h0 rest ih =>
      intro ok s hall
      have hni := hc.noop role h0 "" s (hall h0 (by simp))
      simp only [fallbackPass, hni, Bool.and_true, List.map]
      rw [ih ok s (fun h' hm => hall h' (List.mem_cons_of_mem h0 hm))]

/-- When both looked-up authorities are already initialized, processing a
record is a pure no-op on the state that keeps the accumulator. -/
theorem handleRecord_stable (env : Env σ)
    (initialized : Role → Nat → σ → Bool)
    (hc : LatchContract env initialized) (genReg verReg : Registry)
    (c : EnclaveAssertionAuthorityConfig) (ok : Bool) (s : σ)
    (HG : ∀ h ∈ genReg.map Prod.snd,
      initialized Role.generator h s = true)
    (HV : ∀ h ∈ verReg.map Prod.snd,
      initialized Role.verifier h s = true)
    (id : String) (g v : Nat)
    (hid : env.generateAuthorityId c.description.identity_type
      c.description.authority_type = some id)
    (hg : genReg.lookup id = some g) (hv : verReg.lookup id = some v) :
    handleRecord env genReg verReg c ok s =
      (ok, s, [⟨Role.generator, g, c.config⟩,
        ⟨Role.verifier, v, c.config⟩]) := by
  have h1 := hc.noop Role.generator g c.config s
    (HG g (lookup_mem_values genReg id g hg))
  have h2 := hc.noop Role.verifier v c.config s
    (HV v (lookup_mem_values verReg id v hv))
  simp [handleRecord, lookupStep, hid, hg, hv, h1, h2]

/-- When every registered authority is already initialized and every
record derives an identifier matched in both registries, the first pass is
a pure no-op on the state that keeps the accumulator. -/
theorem firstPass_stable (env : Env σ)
    (initialized : Role → Nat → σ → Bool)
    (hc : LatchContract env initialized) (genReg verReg : Registry) :
    ∀ (configs : List EnclaveAssertionAuthorityConfig) (ok : Bool) (s : σ),
      (∀ h ∈ genReg.map Prod.snd,
        initialized Role.generator h s = true) →
      (∀ h ∈ verReg.map Prod.snd,
        initialized Role.verifier h s = true) →
      (∀ c ∈ configs, ∃ id,
        env.generateAuthorityId c.description.identity_type
          c.description.authority_type = some id ∧
        (∃ g, genReg.lookup id = some g) ∧
        (∃ v, verReg.lookup id = some v)) →
      (firstPass env genReg verReg configs ok s).1 = ok ∧
      (firstPass env genReg verReg configs ok s).2.1 = s := by
  intro configs
  induction configs with
  | nil => intro ok s _ _ _; exact ⟨rfl, rfl⟩
  | cons c rest ih =>
      intro ok s HG HV hmatch
      obtain ⟨id, hid, ⟨g, hg⟩, ⟨v, hv⟩⟩ := hmatch c (by simp)
      have hrec := handleRecord_stable env initialized hc genReg verReg c
        ok s HG HV id g v hid hg hv
      simp only [firstPass, hrec]
      exact ih ok s HG HV
        (fun c' hm => hmatch c' (List.mem_cons_of_mem c hm))

/-- When every registered authority is already initialized and every
record derives an identifier matched in both registries, the whole run
succeeds and leaves the state unchanged. -/
theorem runFrom_stable (env : Env σ)
    (initialized : Role → Nat → σ → Bool)
    (hc : LatchContract env initialized) (genReg verReg : Registry)
    (configs : List EnclaveAssertionAuthorityConfig) (s : σ)
    (HG : ∀ h ∈ genReg.map Prod.snd,
      initialized Role.generator h s = true)
    (HV : ∀ h ∈ verReg.map Prod.snd,
      initialized Role.verifier h s = true)
    (hmatch : ∀ c ∈ configs, ∃ id,
      env.generateAuthorityId c.description.identity_type
        c.description.authority_type = some id ∧
      (∃ g, genReg.lookup id = some g) ∧
      (∃ v, verReg.lookup id = some v)) :
    (runFrom env genReg verReg configs true s).1 = true ∧
    (runFrom env genReg verReg configs true s).2.1 = s := by
  obtain ⟨h1, h2⟩ := firstPass_stable env initialized hc genReg verReg
    configs true s HG HV hmatch
  simp only [runFrom]
  rw [h1, h2]
  rw [fallbackPass_stable env initialized hc Role.generator
        (genReg.map Prod.snd) true s HG]
  rw [fallbackPass_stable env initialized hc Role.verifier
        (verReg.map Prod.snd) true s HV]
  exact ⟨rfl, rfl⟩

/-- The always-accepting set-based environment satisfies the latch
contract. -/
theorem latchEnv_contract : LatchContract latchEnv latchInitialized := by
  constructor
  · intro r h cfg s hs
    simp only [latchInitialized, decide_eq_true_eq] at hs
    simp [latchEnv, hs]
  · intro r h cfg s _
    simp only [latchInitialized, latchEnv, decide_eq_true_eq]
    by_cases hm : (r, h) ∈ s
    · simp [hm]
    · simp [hm]
  · intro r h cfg s r' h' hne
    simp only [latchInitialized, latchEnv]
    by_cases hm : (r, h) ∈ s
    · simp [hm]
    · simp only [if_neg hm]
      rw [decide_eq_decide, List.mem_cons]
      constructor
      · rintro (heq | hmem)
        · injection heq with h1 h2
          rcases hne with hr | hh
          · exact absurd h1.symm hr
          · exact absurd h2.symm hh
        · exact hmem
      · exact Or.inr

/-- The retrying environment satisfies the latch contract. -/
theorem retryEnv_contract : LatchContract retryEnv retryInitialized := by
  constructor
  · intro r h cfg s hs
    simp only [retryInitialized, decide_eq_true_eq] at hs
    obtain ⟨rfl, rfl, h2⟩ := hs
    simp [retryEnv, h2]
  · intro r h cfg s hr
    by_cases hrh : r = Role.generator ∧ h = 0
    · obtain ⟨rfl, rfl⟩ := hrh
      simp only [retryEnv] at hr ⊢
      by_cases h2 : 2 ≤ s
      · simp [retryInitialized, h2]
      · by_cases h1 : s = 1
        · subst h1
          simp [retryInitialized]
        · simp [h2, h1] at hr
    · simp only [retryEnv] at hr
      rw [if_neg hrh] at hr
      cases hr
  · intro r h cfg s r' h' hne
    by_cases hrh : r = Role.generator ∧ h = 0
    · obtain ⟨rfl, rfl⟩ := hrh
      have hfalse : ∀ t, retryInitialized r' h' t = false := by
        intro t
        simp only [retryInitialized, decide_eq_false_iff_not]
        rintro ⟨rfl, rfl, _⟩
        rcases hne with hr | hh
        · exact hr rfl
        · exact hh rfl
      rw [hfalse, hfalse]
    · simp only [retryEnv]
      rw [if_neg hrh]

/-- C5 counterexample: an environment satisfying the idempotent-latch
contract in which the first orchestrator call leaves nothing initialized
(its only authority failed) while a second call with identical inputs
initializes that authority — the set of initialized authorities differs
between the two calls. -/
theorem c5_counterexample :
    LatchContract retryEnv retryInitialized ∧
    (InitializeEnclaveAssertionAuthorities retryEnv
        (World.mk [("A", 0)] [] 0) []).1 = internalAggregateStatus ∧
    (InitializeEnclaveAssertionAuthorities retryEnv
        (World.mk [("A", 0)] [] 0) []).2.1.auth = 1 ∧
    (InitializeEnclaveAssertionAuthorities retryEnv
        (InitializeEnclaveAssertionAuthorities retryEnv
          (World.mk [("A", 0)] [] 0) []).2.1 []).2.1.auth = 2 ∧
    retryInitialized Role.generator 0 1 = false ∧
    retryInitialized Role.generator 0 2 = true ∧
    (InitializeEnclaveAssertionAuthorities retryEnv
        (InitializeEnclaveAssertionAuthorities retryEnv
          (World.mk [("A", 0)] [] 0) []).2.1 []).1 = Status.okStatus :=
  ⟨retryEnv_contract, by decide, by decide, by decide, by decide,
   by decide, by decide⟩

/-- C5 (amended): under the idempotent-latch contract, when a call to
`InitializeEnclaveAssertionAuthorities` returns success, a second call
with identical inputs returns success and leaves the authority state
exactly unchanged: the same set of authorities is initialized and the
second call's repeated `TryInitialize` invocations, all on
already-initialized authorities, have no further observable effect. -/
theorem c5_idempotent_after_success (env : Env σ)
    (initialized : Role → Nat → σ → Bool)
    (hc : LatchContract env initialized) (w : World σ)
    (configs : List EnclaveAssertionAuthorityConfig)
    (hok : (InitializeEnclaveAssertionAuthorities env w configs).1 =
      Status.okStatus) :
    (InitializeEnclaveAssertionAuthorities env
        (InitializeEnclaveAssertionAuthorities env w configs).2.1
        configs).1 = Status.okStatus ∧
    (InitializeEnclaveAssertionAuthorities env
        (InitializeEnclaveAssertionAuthorities env w configs).2.1
        configs).2.1 =
      (InitializeEnclaveAssertionAuthorities env w configs).2.1 := by
  have hrun1 : (runFrom env w.genRegistry w.verRegistry configs true
      w.auth).1 = true := by
    by_contra hne
    have hfalse : (runFrom env w.genRegistry w.verRegistry configs true
        w.auth).1 = false := by
      cases hb : (runFrom env w.genRegistry w.verRegistry configs true
          w.auth).1
      · rfl
      · exact absurd hb hne
    simp only [InitializeEnclaveAssertionAuthorities] at hok
    rw [hfalse] at hok
    simp [internalAggregateStatus, Status.okStatus] at hok
  obtain ⟨hF, hG, hV⟩ := (runFrom_true_iff env w.genRegistry
    w.verRegistry configs w.auth).mp hrun1
  have hrunstate : (runFrom env w.genRegistry w.verRegistry configs true
      w.auth).2.1 =
      (fallbackPass env Role.verifier (w.verRegistry.map Prod.snd) true
        (fallbackPass env Role.generator (w.genRegistry.map Prod.snd)
          true
          (firstPass env w.genRegistry w.verRegistry configs true
            w.auth).2.1).2.1).2.1 := by
    simp only [runFrom]
    rw [hF, hG]
  have hgen2 : ∀ h ∈ w.genRegistry.map Prod.snd,
      initialized Role.generator h
        (fallbackPass env Role.generator (w.genRegistry.map Prod.snd)
          true
          (firstPass env w.genRegistry w.verRegistry configs true
            w.auth).2.1).2.1 = true :=
    fallbackPass_initializes env initialized hc Role.generator
      (w.genRegistry.map Prod.snd) true _ hG
  have hverfin : ∀ h ∈ w.verRegistry.map Prod.snd,
      initialized Role.verifier h
        (fallbackPass env Role.verifier (w.verRegistry.map Prod.snd) true
          (fallbackPass env Role.generator (w.genRegistry.map Prod.snd)
            true
            (firstPass env w.genRegistry w.verRegistry configs true
              w.auth).2.1).2.1).2.1 = true :=
    fallbackPass_initializes env initialized hc Role.verifier
      (w.verRegistry.map Prod.snd) true _ hV
  have hgenfin : ∀ h ∈ w.genRegistry.map Prod.snd,
      initialized Role.generator h
        (fallbackPass env Role.verifier (w.verRegistry.map Prod.snd) true
          (fallbackPass env Role.generator (w.genRegistry.map Prod.snd)
            true
            (firstPass env w.genRegistry w.verRegistry configs true
              w.auth).2.1).2.1).2.1 = true := by
    intro h hm
    rw [fallbackPass_state_fold]
    exact initialized_preserved_fold env initialized hc Role.generator h
      _ _ (hgen2 h hm)
  have hmatch := firstPass_true_elim env w.genRegistry w.verRegistry
    configs true w.auth hF
  have hstable := runFrom_stable env initialized hc w.genRegistry
    w.verRegistry configs
    (fallbackPass env Role.verifier (w.verRegistry.map Prod.snd) true
      (fallbackPass env Role.generator (w.genRegistry.map Prod.snd) true
        (firstPass env w.genRegistry w.verRegistry configs true
          w.auth).2.1).2.1).2.1 hgenfin hverfin hmatch
  constructor
  · simp only [InitializeEnclaveAssertionAuthorities]
    simp only [hrunstate, hstable.1]
    simp
  · simp only [InitializeEnclaveAssertionAuthorities]
    simp only [hrunstate, hstable.2]

/-- Witness for C5 at a concrete environment in which the first call
succeeds. -/
theorem c5_idempotent_after_success_witness :
    (InitializeEnclaveAssertionAuthorities latchEnv
        (World.mk [("A", 0)] [("A", 5)] []) [⟨⟨1, "A"⟩, "cfg"⟩]).1 =
      Status.okStatus ∧
    ((InitializeEnclaveAssertionAuthorities latchEnv
        (InitializeEnclaveAssertionAuthorities latchEnv
          (World.mk [("A", 0)] [("A", 5)] [])
          [⟨⟨1, "A"⟩, "cfg"⟩]).2.1
        [⟨⟨1, "A"⟩, "cfg"⟩]).1 = Status.okStatus ∧
      (InitializeEnclaveAssertionAuthorities latchEnv
          (InitializeEnclaveAssertionAuthorities latchEnv
            (World.mk [("A", 0)] [("A", 5)] [])
            [⟨⟨1, "A"⟩, "cfg"⟩]).2.1
          [⟨⟨1, "A"⟩, "cfg"⟩]).2.1 =
        (InitializeEnclaveAssertionAuthorities latchEnv
            (World.mk [("A", 0)] [("A", 5)] [])
            [⟨⟨1, "A"⟩, "cfg"⟩]).2.1) :=
  ⟨by decide,
   c5_idempotent_after_success latchEnv latchInitialized latchEnv_contract
    (World.mk [("A", 0)] [("A", 5)] []) [⟨⟨1, "A"⟩, "cfg"⟩] (by decide)⟩

end Asylo
